import Mathlib

set_option maxRecDepth 100000

/-!
Verification of the LumiSpy demo-notebook repository.

The repository consists of six Jupyter notebooks (three named files:
`AttolightSEM_HYP.ipynb`, `AttolightSEM_sur_to_hspy.ipynb`, `GatanSEM_dm.ipynb`,
and three unnamed tutorial notebooks) plus README documents.  The notebooks
contain Python code cells that call into the external HyperSpy/LumiSpy
libraries.

We embed the code cells at the statement level: each Python statement of each
code cell becomes one `Stmt` value, recording which library methods or
attributes the statement references, what it assigns, whether it defines a
function, and the statement-level control flow (for-loops, if/elif/else
chains, try/except blocks).  Specific cells whose run-time behaviour the
claims are about (the SE-navigator try/except cell, the background-path
try/except cell, the advanced fitting cell, the Jacobian `to_eV` conversion)
additionally get executable functional models.
-/

/-- A straight-line Python statement (no control flow):
an expression statement, an assignment, a `return`, a `raise`,
an `import`, or an IPython magic. `refs` records the names of the external
library methods / attributes the statement invokes or reads. -/
inductive SimpleStmt where
  | expr (refs : List String) : SimpleStmt
  | assign (lhs : String) (refs : List String) : SimpleStmt
  | ret (refs : List String) : SimpleStmt
  | raiseStmt (exc : String) : SimpleStmt
  | imp (module : String) : SimpleStmt
  | magic (m : String) : SimpleStmt
deriving DecidableEq

/-- A statement allowed inside the body of an `if` branch:
either straight-line, or a nested for-loop (as in the advanced fitting cell,
whose `if` branch contains a deactivation loop). -/
inductive Block where
  | simple (s : SimpleStmt) : Block
  | forLoop (body : List SimpleStmt) : Block
deriving DecidableEq

/-- A top-level Python statement of a notebook code cell. -/
inductive Stmt where
  | simple (s : SimpleStmt) : Stmt
  | funcDef (name : String) (body : List SimpleStmt) : Stmt
  | classDef (name : String) (body : List SimpleStmt) : Stmt
  | forLoop (body : List SimpleStmt) : Stmt
  | ifChain (branches : List (String × List Block)) (els : List Block) : Stmt
  | tryExcept (body handler : List SimpleStmt) (exc : Option String) : Stmt
deriving DecidableEq

/-- A code cell is a list of statements; a notebook is its list of code cells. -/
abbrev Cell := List Stmt

abbrev Notebook := List Cell

/-- Shorthand: an expression statement referencing the given library names. -/
def call (refs : List String) : Stmt := .simple (.expr refs)

/-- Shorthand: an assignment statement. -/
def asg (lhs : String) (refs : List String) : Stmt := .simple (.assign lhs refs)

/-- Shorthand: an import statement. -/
def pyimport (module : String) : Stmt := .simple (.imp module)

/-- Shorthand: an IPython magic line. -/
def pymagic (m : String) : Stmt := .simple (.magic m)

/-- Is a top-level statement a control-flow construct (loop, conditional
branch, or exception handler)? -/
def Stmt.isControlFlow : Stmt → Bool
  | .forLoop _ => true
  | .ifChain _ _ => true
  | .tryExcept _ _ _ => true
  | _ => false

/-- Does a top-level statement define a function (a Python `def`)? -/
def Stmt.definesFunction : Stmt → Bool
  | .funcDef _ _ => true
  | _ => false

/-- Does a top-level statement define a class (a Python `class`)? -/
def Stmt.definesClass : Stmt → Bool
  | .classDef _ _ => true
  | _ => false

/-- Library names referenced by a straight-line statement. -/
def SimpleStmt.refs : SimpleStmt → List String
  | .expr rs => rs
  | .assign _ rs => rs
  | .ret rs => rs
  | .raiseStmt _ => []
  | .imp _ => []
  | .magic _ => []

/-- Library names referenced by an if-branch statement. -/
def Block.refs : Block → List String
  | .simple s => s.refs
  | .forLoop body => (body.map SimpleStmt.refs).flatten

/-- Library names referenced anywhere in a top-level statement. -/
def Stmt.refs : Stmt → List String
  | .simple s => s.refs
  | .funcDef _ body => (body.map SimpleStmt.refs).flatten
  | .classDef _ body => (body.map SimpleStmt.refs).flatten
  | .forLoop body => (body.map SimpleStmt.refs).flatten
  | .ifChain branches els =>
      (branches.map (fun b => (b.2.map Block.refs).flatten)).flatten
        ++ (els.map Block.refs).flatten
  | .tryExcept body handler _ =>
      (body.map SimpleStmt.refs).flatten ++ (handler.map SimpleStmt.refs).flatten

/-- Does a cell contain a control-flow statement? -/
def cellHasControlFlow (c : Cell) : Bool := c.any Stmt.isControlFlow

/-- Notebook `AttolightSEM_HYP.ipynb`: code cells, one `Cell` per code cell,
in notebook order. -/
def attolightSEM_HYP : Notebook := [
  [pymagic "matplotlib qt", pyimport "lumispy"],
  [asg "path" [], asg "cl_sem" ["load"], call []],
  [call ["plot"]],
  [call ["metadata"]],
  [asg "cl_sem_bkg" [], asg "cl_sem_bkg" ["background_subtraction"]],
  [call ["correct_grating_shift"]],
  [asg "cl_sem_bkg" ["crop_edges"]],
  [asg "cl_sem_bkg_spikes" ["cosmic_rays_subtraction"]],
  [call ["plot"]],
  [call ["mean", "plot"]],
  [call ["mean", "plot"]],
  [pyimport "os", asg "se_path" ["os.path.join", "os.path.split"],
   asg "SE" ["hyperspyload"]],
  [.tryExcept
    [.assign "crop" ["metadata.Signal.cropped_edges"],
     .assign "size_x" ["metadata.Acquisition_instrument.SEM.resolution_x"],
     .assign "size_y" ["metadata.Acquisition_instrument.SEM.resolution_x"],
     .assign "SE" ["isig"],
     .expr ["plot"]]
    [.expr ["plot"]]
    none],
  [call ["metadata"]],
  []]

/-- Notebook `AttolightSEM_sur_to_hspy.ipynb`: code cells in notebook order. -/
def attolightSEM_sur_to_hspy : Notebook := [
  [pymagic "matplotlib widget", pyimport "hyperspy.api", pyimport "lumispy",
   pyimport "os", pyimport "glob"],
  [asg "root_folder" [], asg "path" ["os.path.join"], asg "cl" ["load"],
   call []],
  [call ["plot"]],
  [call ["metadata"]],
  [call ["original_metadata"]],
  [.tryExcept
    [.assign "bkg_path" ["os.path.join"],
     .assign "bkg_path" ["glob.glob"]]
    [.expr ["print"],
     .assign "bkg_path" []]
    (some "IndexError")],
  [pyimport "numpy", asg "cl_bkg" ["np.loadtxt"], call ["print"],
   asg "cl" []],
  [asg "calibration_factor" [], asg "grating" ["original_metadata"],
   .ifChain
     [("grating == 150", [.simple (.assign "correction_factor_grating" [])]),
      ("grating == 600", [.simple (.assign "correction_factor_grating" [])])]
     [.simple (.raiseStmt "ImportError")],
   asg "fov" ["original_metadata"],
   asg "grating_calibrations" []],
  [call ["correct_grating_shift"]],
  [asg "cl" ["crop_edges"]],
  [call ["remove_spikes"]],
  [call ["plot"], call ["mean", "plot"]],
  []]

/-- Notebook `GatanSEM_dm.ipynb`: code cells in notebook order. -/
def gatanSEM_dm : Notebook := [
  [pymagic "matplotlib widget", pyimport "lumispy", pyimport "hyperspy.api"],
  [asg "cl_spec" ["load"]],
  [call []],
  [call ["set_signal_type"]],
  [call []],
  [call ["plot"]],
  [asg "cl_spec_eV" ["to_eV"]],
  [call ["plot"]],
  [asg "cl_linescan" ["load"]],
  [call ["plot"]],
  [call ["remove_background"]],
  [asg "cl_linescan" ["isig"], call ["plot"]],
  [call ["spikes_removal_tool"]],
  [call ["metadata"]],
  [call ["original_metadata"]],
  [call ["metadata.set_item"], call ["metadata.set_item"]],
  [call ["metadata"]],
  [call ["save"]],
  []]

/-- First unnamed tutorial notebook (time-resolved transients, `part_001`
document 0): code cells in notebook order. -/
def tutorialTransients : Notebook := [
  [pyimport "numpy", pyimport "matplotlib.pyplot", pyimport "hyperspy.api",
   pyimport "lumispy", pymagic "matplotlib qt5"],
  [asg "spectra_map" ["load"]],
  [call []],
  [call ["axes_manager"]],
  [call ["plot"]],
  [call ["metadata"]],
  [call ["data"]],
  [call ["inav", "plot"]],
  [call ["plot_roi_map"]],
  [asg "transient_map" ["load"], call ["plot"]],
  [call ["dir"]],
  [asg "Decay1Exp" ["Expression"]],
  [asg "t" [], asg "transient_fit" ["create_model"], call ["append"],
   asg "t.height.value" [], asg "t.t0.value" [], asg "t.tau.value" [],
   asg "t.sigma.value" [], call ["multifit"]],
  [call ["plot"]],
  [asg "tau_fitted" ["as_signal"], call ["plot"]],
  [asg "transient_map_norm" ["map"], asg "tau_integrated" ["integrate1D"]],
  [call ["plot_images"]],
  [asg "streak01" ["load"], call []],
  [call ["plot"]],
  [asg "fig" ["plt.figure"], asg "subfigs" ["subfigures"],
   asg "roi1" ["SpanROI"], asg "roi2" ["SpanROI"], call ["plot"],
   asg "sliced_signal1" ["interactive"], asg "sliced_signal2" ["interactive"],
   asg "integrated_sliced_signal1" ["interactive"],
   asg "integrated_sliced_signal2" ["interactive"], call ["plot_spectra"]],
  [call []],
  [asg "streak02" ["load"], call ["axes_manager"]],
  [call ["to_eV"], call ["axes_manager"]],
  [call ["plot"]],
  [call ["sum", "plot"]],
  [asg "spectral_fit" ["time2nav", "create_model"], asg "g1, g2" ["Gaussian"],
   call ["extend"], asg "g1.centre.bmax" [], asg "g1.centre.bmin" [],
   asg "g1.sigma.bmax" [], asg "g2.centre.bmin" [], asg "g2.sigma.bmax" [],
   call ["multifit"]],
  [call ["plot"]],
  [asg "transient1" ["as_signal"], asg "transient2" ["as_signal"]],
  [asg "fig" ["plt.figure"], asg "subfigs" ["subfigures"],
   asg "ax1" ["add_subplot"], asg "ax2" ["add_subplot"], call ["plot"],
   asg "m" ["VerticalLines"], call ["add_marker"], asg "fit" ["as_signal"],
   asg "gaussian1" ["as_signal"], asg "gaussian2" ["as_signal"], asg "t" [],
   call ["plot_spectra"], call ["set_xlabel"], call ["set_ylabel"],
   call ["set_yticks"], call ["plot_spectra"], call ["set_yscale"],
   call ["set_ylim"], call ["set_xlim"], call ["set_xlabel"],
   call ["set_ylabel"], call ["set_yticks"]],
  []]

/-- Second unnamed tutorial notebook (fitting, `part_001` document 1):
code cells in notebook order. -/
def tutorialFitting : Notebook := [
  [pymagic "matplotlib widget", pyimport "hyperspy.api", pyimport "lumispy",
   pyimport "matplotlib.pyplot", pyimport "numpy"],
  [asg "cl1" ["load"], asg "cl2" ["load"], asg "cl3" ["load"]],
  [call ["load"]],
  [call []],
  [call ["axes_manager"]],
  [call ["data"]],
  [call ["metadata"]],
  [call ["original_metadata"]],
  [call ["plot"]],
  [call ["mean", "plot"]],
  [call ["inav", "plot"]],
  [call ["isig", "mean", "plot"]],
  [call ["mean", "plot"]],
  [call ["isig", "mean", "plot"]],
  [asg "im" [], call ["plot"], asg "roi1" ["SpanROI"],
   asg "im_roi1" ["interactive"], asg "im_roi1_mean" ["interactive", "mean"],
   call ["plot"]],
  [call ["axes_manager"]],
  [asg "cl1_eV" ["to_eV"]],
  [call ["axes_manager"]],
  [call ["plot"]],
  [asg "axis" [], asg "s" ["Signal1D"], call ["set_signal_type"],
   asg "s2" ["to_eV"]],
  [asg "x" ["np.arange"], asg "x2" ["nm2eV"], asg "y2" ["Signal1D"],
   call ["set_signal_type"], call ["to_eV"]],
  [asg "fig1" ["plt.figure"], asg "ax0" ["plt.subplot"], call ["plt.ylim"],
   call ["plt.xlabel"], call ["plot"], call ["vlines"], call ["fill_between"],
   asg "ax1" ["plt.subplot"], call ["plt.ylim"], call ["plt.xlabel"],
   call ["plot"], call ["vlines"], call ["fill_between"]],
  [asg "m" ["create_model"]],
  [call ["components"]],
  [asg "bkg" ["Offset"], asg "g1" ["GaussianHF"], call ["extend"],
   call ["components"]],
  [call ["print_current_values"]],
  [asg "cl1.axes_manager.indices" [], asg "g1.centre.value" [],
   asg "g1.fwhm.value" [], asg "g1.height.value" [], asg "bkg.offset.value" []],
  [asg "g1.centre.bmax" [], asg "g1.centre.bmin" [], asg "g1.fwhm.bmin" []],
  [call ["fit"], call ["assign_current_values_to_all"], call ["plot"]],
  [call ["print_current_values"]],
  [call ["multifit"], call ["plot"]],
  [asg "m_centre" ["as_signal"], call ["plot"], asg "m_intensity" ["as_signal"],
   call ["plot"]],
  [asg "mask_treshold" ["mean"], asg "mask" [], call ["plt.figure"],
   call ["plt.imshow"]],
  [call ["plot"]],
  [call ["plot"], call ["remove_background"]],
  [asg "cl2" ["isig"], call ["plot"]],
  [call ["spikes_removal_tool"]],
  [asg "cl2" ["rebin"], call ["plot"]],
  [call ["plot"], call ["smooth_lowess"]],
  [call ["plot"]],
  [asg "peaks" ["isig", "find_peaks1D_ohaver"]],
  [call []],
  [asg "width" ["isig", "estimate_peak_width"], call ["plot"]],
  [asg "com" ["isig", "centroid"], call ["plot"]],
  [asg "mrk" ["vertical_line"], asg "mrkl" ["vertical_line"],
   asg "mrkr" ["vertical_line"], call ["add_marker"], call ["plot"]],
  [asg "cl3" ["inav"], asg "m" ["create_model"], asg "g1" ["SkewNormal"],
   asg "g2" ["GaussianHF"], call ["extend"], asg "g1.x0.value" [],
   asg "g1.scale.value" [], asg "g1.shape.value" [], asg "g1.A.value" [],
   asg "g1.x0.bmin" [], asg "g1.x0.bmax" [], asg "g1.x0.bounded" [],
   asg "g2.centre.value" [], asg "g2.fwhm.value" [], asg "g2.height.value" [],
   call ["fit"], call ["plot"]],
  [.funcDef "getPeaks"
    [.assign "S2" ["rebin"],
     .expr ["smooth_savitzky_golay"],
     .assign "peaks" ["find_peaks1D_ohaver", "np.max"],
     .ret []]],
  [asg "ng" [], asg "S2" ["deepcopy"], asg "g" ["list"],
   .forLoop [.expr ["append", "GaussianHF"]],
   call ["extend"],
   .forLoop [.assign "g[i].active_is_multidimensional" []],
   asg "peaks" ["getPeaks", "inav", "axes_manager.indices"],
   .forLoop
     [.assign "g[i].centre.value" [], .assign "g[i].centre.bmin" [],
      .assign "g[i].centre.bmax" [], .assign "g[i].centre.bounded" [],
      .assign "g[i].fwhm.value" [], .assign "g[i].fwhm.bmax" [],
      .assign "g[i].fwhm.bmin" [], .assign "g[i].fwhm.bounded" [],
      .assign "g[i].height.value" [], .assign "g[i].height.bmin" [],
      .assign "g[i].height.bounded" []],
   .ifChain
     [("np.size(peaks) < ng", [.forLoop [.assign "g[i].active" []]])]
     [],
   call ["fit"], call ["plot"]],
  []]

/-- Third unnamed tutorial notebook (basic processing, `part_001`
document 2): code cells in notebook order. -/
def tutorialProcessing : Notebook := [
  [pyimport "warnings", call ["simplefilter"], pymagic "matplotlib qt",
   pyimport "hyperspy.api", pyimport "lumispy"],
  [call ["print_known_signal_types"]],
  [asg "cl2" ["load"]],
  [call []],
  [call ["metadata"]],
  [call ["plot"]],
  [call ["remove_background"]],
  [asg "cl2" ["isig"]],
  [call ["plot"]],
  [call ["spikes_removal_tool"]],
  [asg "cl2" ["rebin"], call ["plot"]],
  [asg "cl2a" ["deepcopy"], call ["smooth_lowess"]],
  [asg "peaks" ["isig", "find_peaks1D_ohaver"]],
  [call []],
  [asg "com" ["isig", "centroid"]],
  [call ["plot"]],
  [asg "width" ["isig", "estimate_peak_width"]],
  [call ["plot"]],
  [asg "mrk" ["vertical_line"], asg "mrkl" ["vertical_line"],
   asg "mrkr" ["vertical_line"], call ["add_marker"], call ["plot"]],
  [call ["axes_manager"]],
  [asg "cl2_eV" ["to_eV"]],
  [call ["axes_manager"]],
  [call ["axes_manager"]],
  [call ["plot"]],
  [asg "m" ["create_model"]],
  [call ["components"]],
  [asg "g1" ["SkewNormal"], call ["append"], call ["components"]],
  [call ["print_current_values"]],
  [call ["multifit"]],
  [call ["plot"]],
  [call ["print_current_values"]]]

/-- All six notebooks of the repository. -/
def allNotebooks : List Notebook :=
  [attolightSEM_HYP, attolightSEM_sur_to_hspy, gatanSEM_dm,
   tutorialTransients, tutorialFitting, tutorialProcessing]

/-- All code cells of the repository. -/
def allCells : List Cell := allNotebooks.flatten

/-- All top-level statements of all code cells. -/
def allStmts : List Stmt := allCells.flatten

/-- All library names referenced anywhere in the repository. -/
def allRefs : List String := (allStmts.map Stmt.refs).flatten

/-!
Executable functional models of the cells whose run-time behaviour the
claims are about.
-/

/-- The metadata fields read by the SE-navigator cell of
`AttolightSEM_HYP.ipynb` (cell 27): `metadata.Signal.cropped_edges` and
`metadata.Acquisition_instrument.SEM.resolution_x` /
`resolution_y`.  `none` models an absent field, whose attribute access
raises an exception. -/
structure SEMMetadata where
  cropped_edges : Option Int
  resolution_x : Option Int
  resolution_y : Option Int
deriving DecidableEq

/-- The navigator image passed to `plot`: either the full uncropped SE
image, or the slice `SE.isig[x0:x1, y0:y1]`. -/
inductive Navigator where
  | full : Navigator
  | cropped (x0 x1 y0 y1 : Int) : Navigator
deriving DecidableEq

/-- Executable model of the SE-navigator cell of `AttolightSEM_HYP.ipynb`:
```
try:
    crop = cl_sem_bkg_spikes.metadata.Signal.cropped_edges
    size_x = cl_sem_bkg_spikes.metadata.Acquisition_instrument.SEM.resolution_x
    size_y = cl_sem_bkg_spikes.metadata.Acquisition_instrument.SEM.resolution_x
    SE = SE.isig[crop:size_x-crop, crop:size_y-crop]
    cl_sem_bkg_spikes.plot(navigator=SE)
except:
    cl_sem_bkg_spikes.plot(navigator=SE)
```
The first component is the navigator image handed to the `plot` call that
runs, the second records that a `plot` call ran.  Note that, as in the
source, both `size_x` and `size_y` are read from `resolution_x`. -/
def navigatorCell (md : SEMMetadata) : Navigator × Bool :=
  match md.cropped_edges with
  | none => (Navigator.full, true)
  | some crop =>
    match md.resolution_x with
    | none => (Navigator.full, true)
    | some size_x =>
      match md.resolution_x with
      | none => (Navigator.full, true)
      | some size_y =>
        (Navigator.cropped crop (size_x - crop) crop (size_y - crop), true)

/-- The message printed by the background-path cell when no `*.txt` file
is found. -/
def bkgPathPrompt : String := "Please, specify a `background.txt` file path below:"

/-- Model of `glob.glob(...)[0]`: the first match, or an `IndexError` when the glob
matched nothing. -/
def globFirst (ms : List String) : Except String String :=
  match ms with
  | [] => Except.error "IndexError"
  | p :: _ => Except.ok p

/-- Executable model of the background-path cell of
`AttolightSEM_sur_to_hspy.ipynb`:
```
try:
    bkg_path = os.path.join(root_folder, '*.txt')
    bkg_path = glob.glob(bkg_path)[0]
except IndexError:
    print('Please, specify a `background.txt` file path below:')
    bkg_path = ''
```
`ms` is the list of files matched by the glob.  The result is the list of
printed lines together with the final value of `bkg_path`; an uncaught
exception would surface as `Except.error`. -/
def bkgPathCell (ms : List String) : Except String (List String × String) :=
  match globFirst ms with
  | Except.ok p => Except.ok ([], p)
  | Except.error e =>
    if e = "IndexError" then Except.ok ([bkgPathPrompt], "")
    else Except.error e

/-- Does a modelled cell complete without an uncaught exception? -/
def runsWithoutError (r : Except String (List String × String)) : Bool :=
  match r with
  | Except.ok _ => true
  | Except.error _ => false

/-- A bounded parameter of a HyperSpy 1D model component: its current
`value`, optional bounds `bmin` / `bmax`, and the `bounded` flag. -/
structure Param where
  value : ℚ
  bmin : Option ℚ
  bmax : Option ℚ
  bounded : Bool
deriving DecidableEq

/-- The state of a `GaussianHF` component that the advanced fitting cell
manipulates: its three parameters and its `active` /
`active_is_multidimensional` flags. -/
structure GaussianHF where
  centre : Param
  fwhm : Param
  height : Param
  active : Bool
  active_is_multidimensional : Bool
deriving DecidableEq

/-- A freshly constructed `hs.model.components1D.GaussianHF()`: parameters
unbounded at the library defaults, `active` true on construction and
`active_is_multidimensional` false. -/
def GaussianHF.new : GaussianHF :=
  { centre := ⟨0, none, none, false⟩
    fwhm := ⟨1, none, none, false⟩
    height := ⟨1, none, none, false⟩
    active := true
    active_is_multidimensional := false }

/-- One Python update `g[i] <- f (g[i])`; `none` models the `IndexError`
raised when `i` is out of range. -/
def updateAt (g : List GaussianHF) (i : Nat) (f : GaussianHF → GaussianHF) :
    Option (List GaussianHF) :=
  match g[i]? with
  | some c => some (g.set i (f c))
  | none => none

/-- A Python `for i in idxs:` loop whose body updates `g[i]`, propagating an
`IndexError`. -/
def forIndices (g : List GaussianHF) (idxs : List Nat)
    (f : Nat → GaussianHF → GaussianHF) : Option (List GaussianHF) :=
  match idxs with
  | [] => some g
  | i :: rest =>
    match updateAt g i (f i) with
    | some g2 => forIndices g2 rest f
    | none => none

/-- The constant `ng = 10` of the advanced fitting cell. -/
def ng : Nat := 10

/-- Modelled from the spec: the external library peak finder
`find_peaks1D_ohaver(..., maxpeakn=n)` (HyperSpy code, not part of this
repository) returns the located peaks as a structured array holding at most
`maxpeakn` entries; we model only the list of peak positions and the
truncation to `maxpeakn`. -/
def find_peaks1D_ohaver (candidates : List ℚ) (maxpeakn : Nat) : List ℚ :=
  candidates.take maxpeakn

/-- Functional model of the repository function `getPeaks` (the fitting
notebook): `rebin` and `smooth_savitzky_golay` transform the spectrum, then
the peak list is `find_peaks1D_ohaver(..., maxpeakn=10)[0]`.  `candidates`
stands for the positions the library's peak search locates in the rebinned,
smoothed spectrum. -/
def getPeaksModel (candidates : List ℚ) : List ℚ :=
  find_peaks1D_ohaver candidates 10

/-- Executable model of the advanced fitting cell of the fitting notebook:
```
ng=10
g = list()
for i in np.arange(ng):
    g.append(hs.model.components1D.GaussianHF())
m.extend(g)
for i in np.arange(ng):
    g[i].active_is_multidimensional = True
peaks = getPeaks(S2.inav[cl3.axes_manager.indices])
for i in np.arange(np.size(peaks)):
    g[i].centre.value=peaks['position'][i]
    ... (centre bounds, fwhm, height)
if np.size(peaks)<ng:
    for i in np.arange(np.size(peaks),ng):
        g[i].active = False
```
`peaks` is the list of peak positions; the result is the final state of the
component list `g`, or `none` if any `g[i]` raised an `IndexError`. -/
def advancedFittingCell (peaks : List ℚ) : Option (List GaussianHF) :=
  let g0 : List GaussianHF := List.replicate ng GaussianHF.new
  match forIndices g0 (List.range ng)
      (fun _ c => { c with active_is_multidimensional := true }) with
  | none => none
  | some g1 =>
    match forIndices g1 (List.range peaks.length) (fun i c =>
      let p := peaks.getD i 0
      { c with
        centre := ⟨p, some (p - 3), some (p + 3), true⟩
        fwhm := ⟨5, some 1, some 10, true⟩
        height := ⟨20, some 1, none, true⟩ }) with
    | none => none
    | some g2 =>
      if peaks.length < ng then
        forIndices g2 (List.range' peaks.length (ng - peaks.length))
          (fun _ c => { c with active := false })
      else
        some g2

theorem updateAt_eq_some {g : List GaussianHF} {i : Nat}
    {f : GaussianHF → GaussianHF} {g2 : List GaussianHF}
    (h : updateAt g i f = some g2) :
    ∃ hi : i < g.length, g2 = g.set i (f (g[i])) := by
  unfold updateAt at h
  cases hg : g[i]? with
  | none => rw [hg] at h; cases h
  | some c =>
    rw [hg] at h
    have hi : i < g.length := by
      by_contra hcon
      push_neg at hcon
      rw [List.getElem?_eq_none hcon] at hg
      cases hg
    refine ⟨hi, ?_⟩
    rw [List.getElem?_eq_getElem hi] at hg
    cases h
    rw [Option.some.inj hg]

theorem forIndices_isSome (idxs : List Nat) (f : Nat → GaussianHF → GaussianHF) :
    ∀ g : List GaussianHF, (∀ i ∈ idxs, i < g.length) →
    ∃ g2, forIndices g idxs f = some g2 ∧ g2.length = g.length := by
  induction idxs with
  | nil => intro g _; exact ⟨g, rfl, rfl⟩
  | cons i rest ih =>
    intro g h
    have hi : i < g.length := h i (List.mem_cons_self i rest)
    have hup : updateAt g i (f i) = some (g.set i (f i (g[i]))) := by
      unfold updateAt
      rw [List.getElem?_eq_getElem hi]
    have hlen : (g.set i (f i (g[i]))).length = g.length := List.length_set ..
    obtain ⟨g2, hg2, hg2len⟩ := ih (g.set i (f i (g[i])))
      (fun j hj => by rw [hlen]; exact h j (List.mem_cons_of_mem _ hj))
    refine ⟨g2, ?_, by rw [hg2len, hlen]⟩
    unfold forIndices
    rw [hup]
    exact hg2

theorem forIndices_getElem (idxs : List Nat) (f : Nat → GaussianHF → GaussianHF) :
    ∀ g g2 : List GaussianHF, forIndices g idxs f = some g2 → idxs.Nodup →
    ∀ (j : Nat) (hj : j < g.length) (hj2 : j < g2.length),
    g2[j] = if j ∈ idxs then f j (g[j]) else g[j] := by
  induction idxs with
  | nil =>
    intro g g2 h _ j hj hj2
    simp only [forIndices] at h
    cases h
    simp
  | cons i rest ih =>
    intro g g2 h hnd j hj hj2
    simp only [forIndices] at h
    cases hup : updateAt g i (f i) with
    | none => rw [hup] at h; cases h
    | some gmid =>
      rw [hup] at h
      obtain ⟨hi, hmid⟩ := updateAt_eq_some hup
      subst hmid
      obtain ⟨hirest, hndr⟩ := List.nodup_cons.mp hnd
      have hjmid : j < (g.set i (f i (g[i]))).length := by
        rw [List.length_set]; exact hj
      have hval := ih _ _ h hndr j hjmid hj2
      by_cases hji : j = i
      · subst hji
        rw [hval, if_neg (fun hc => hirest hc), if_pos (List.mem_cons_self j rest)]
        rw [List.getElem_set_self]
      · have hset : (g.set i (f i (g[i])))[j] = g[j] :=
          List.getElem_set_ne (fun hc => hji hc.symm) ..
        rw [hval, hset]
        by_cases hjr : j ∈ rest
        · rw [if_pos hjr, if_pos (List.mem_cons_of_mem _ hjr)]
        · rw [if_neg hjr, if_neg (by
            intro hc
            rcases List.mem_cons.mp hc with hc1 | hc2
            · exact hji hc1
            · exact hjr hc2)]

theorem advancedFittingCell_spec (peaks : List ℚ) (h : peaks.length ≤ ng) :
    ∃ g, advancedFittingCell peaks = some g ∧ g.length = ng ∧
      (∀ j, j < ng → peaks.length ≤ j →
        (g[j]?).map GaussianHF.active = some false) ∧
      (∀ j, j < peaks.length →
        (g[j]?).map GaussianHF.active = some true) := by
  have hg0len : (List.replicate ng GaussianHF.new).length = ng :=
    List.length_replicate ..
  obtain ⟨g1, he1, hl1⟩ := forIndices_isSome (List.range ng)
    (fun _ c => { c with active_is_multidimensional := true })
    (List.replicate ng GaussianHF.new)
    (fun i hi => by rw [hg0len]; exact List.mem_range.mp hi)
  rw [hg0len] at hl1
  have hv1 : ∀ (j : Nat) (hj : j < g1.length), g1[j].active = true := by
    intro j hj
    have hjn : j < ng := by rw [← hl1]; exact hj
    have hjg0 : j < (List.replicate ng GaussianHF.new).length := by
      rw [hg0len]; exact hjn
    have hval := forIndices_getElem (List.range ng) _ _ g1 he1
      (List.nodup_range ng) j hjg0 hj
    rw [hval, if_pos (List.mem_range.mpr hjn), List.getElem_replicate]
    rfl
  obtain ⟨g2, he2, hl2⟩ := forIndices_isSome (List.range peaks.length)
    (fun i c =>
      let p := peaks.getD i 0
      { c with
        centre := ⟨p, some (p - 3), some (p + 3), true⟩
        fwhm := ⟨5, some 1, some 10, true⟩
        height := ⟨20, some 1, none, true⟩ }) g1
    (fun i hi => by
      rw [hl1]
      exact lt_of_lt_of_le (List.mem_range.mp hi) h)
  rw [hl1] at hl2
  have hv2 : ∀ (j : Nat) (hj : j < g2.length), g2[j].active = true := by
    intro j hj
    have hjg1 : j < g1.length := by rw [hl1, ← hl2]; exact hj
    have hval := forIndices_getElem (List.range peaks.length) _ g1 g2 he2
      (List.nodup_range peaks.length) j hjg1 hj
    rw [hval]
    by_cases hjp : j ∈ List.range peaks.length
    · rw [if_pos hjp]
      exact hv1 j hjg1
    · rw [if_neg hjp]
      exact hv1 j hjg1
  by_cases hlt : peaks.length < ng
  · obtain ⟨g3, he3, hl3⟩ := forIndices_isSome
      (List.range' peaks.length (ng - peaks.length))
      (fun _ c => { c with active := false }) g2
      (fun i hi => by
        rw [hl2]
        have := List.mem_range'_1.mp hi
        omega)
    rw [hl2] at hl3
    refine ⟨g3, ?_, hl3, ?_, ?_⟩
    · simp only [advancedFittingCell, he1, he2]
      rw [if_pos hlt]
      exact he3
    · intro j hjn hjp
      have hj3 : j < g3.length := by rw [hl3]; exact hjn
      have hj2 : j < g2.length := by rw [hl2]; exact hjn
      have hact : g3[j].active = false := by
        have hval := forIndices_getElem _ _ g2 g3 he3
          (List.nodup_range' _ _) j hj2 hj3
        rw [hval, if_pos (List.mem_range'_1.mpr ⟨hjp, by omega⟩)]
      rw [List.getElem?_eq_getElem hj3, Option.map_some', hact]
    · intro j hjp
      have hjn : j < ng := lt_of_lt_of_le hjp h
      have hj3 : j < g3.length := by rw [hl3]; exact hjn
      have hj2 : j < g2.length := by rw [hl2]; exact hjn
      have hnotmem : j ∉ List.range' peaks.length (ng - peaks.length) := by
        intro hc
        have := List.mem_range'_1.mp hc
        omega
      have hact : g3[j].active = true := by
        have hval := forIndices_getElem _ _ g2 g3 he3
          (List.nodup_range' _ _) j hj2 hj3
        rw [hval, if_neg hnotmem]
        exact hv2 j hj2
      rw [List.getElem?_eq_getElem hj3, Option.map_some', hact]
  · refine ⟨g2, ?_, hl2, ?_, ?_⟩
    · simp only [advancedFittingCell, he1, he2]
      rw [if_neg hlt]
    · intro j hjn hjp
      omega
    · intro j hjp
      have hj2 : j < g2.length := by rw [hl2]; omega
      rw [List.getElem?_eq_getElem hj2, Option.map_some', hv2 j hj2]

/-- Modelled from the spec: the external library conversion `to_eV` (LumiSpy
code, not part of this repository) maps a wavelength-axis spectrum to an
energy-axis spectrum via E = hc/λ and, by default (`jacobian=True`), rescales
the intensity with the Jacobian factor hc/E², as documented in the fitting
notebook: I(E) = I(λ)·dλ/dE = I(hc/E)·hc/E² (up to the orientation sign).
`hc` is the product of the Planck constant and the speed of light in the
units of the axes. -/
noncomputable def toEVIntensity (hc : ℝ) (I : ℝ → ℝ) : ℝ → ℝ :=
  fun E => I (hc / E) * (hc / E ^ 2)

theorem hasDerivAt_hc_div (hc x : ℝ) (hx : x ≠ 0) :
    HasDerivAt (fun E => hc / E) (-(hc / x ^ 2)) x := by
  have h0 := (hasDerivAt_inv hx).const_mul hc
  have hval : hc * -(x ^ 2)⁻¹ = -(hc / x ^ 2) := by
    field_simp
  rw [hval] at h0
  have hfun : (fun y => hc * y⁻¹) = fun E => hc / E := by
    funext y
    rw [div_eq_mul_inv]
  rw [hfun] at h0
  exact h0

/-- C4: converting a spectrum from a wavelength axis to an energy axis with
the default Jacobian rescaling preserves the integrated intensity: the
integral of the rescaled intensity over the energy window [E1, E2] equals the
integral of the original intensity over the corresponding wavelength window
[hc/E2, hc/E1]. -/
theorem to_eV_jacobian_preserves_integral (hc : ℝ) (hhc : 0 < hc)
    (I : ℝ → ℝ) (hI : Continuous I) (E1 E2 : ℝ) (h1 : 0 < E1) (h12 : E1 ≤ E2) :
    ∫ E in E1..E2, toEVIntensity hc I E = ∫ l in (hc / E2)..(hc / E1), I l := by
  have hne : ∀ x ∈ Set.uIcc E1 E2, x ≠ 0 := by
    intro x hx
    rw [Set.uIcc_of_le h12] at hx
    exact ne_of_gt (lt_of_lt_of_le h1 hx.1)
  have hderiv : ∀ x ∈ Set.uIcc E1 E2,
      HasDerivAt (fun E => hc / E) (-(hc / x ^ 2)) x :=
    fun x hx => hasDerivAt_hc_div hc x (hne x hx)
  have hcont : ContinuousOn (fun x => -(hc / x ^ 2)) (Set.uIcc E1 E2) := by
    apply ContinuousOn.neg
    exact ContinuousOn.div continuousOn_const (continuous_pow 2).continuousOn
      (fun x hx => pow_ne_zero 2 (hne x hx))
  have key := intervalIntegral.integral_comp_smul_deriv hderiv hcont hI
  have lhs_eq : (∫ x in E1..E2, (-(hc / x ^ 2)) • (I ∘ fun E => hc / E) x)
      = -(∫ E in E1..E2, toEVIntensity hc I E) := by
    rw [← intervalIntegral.integral_neg]
    congr 1
    funext x
    simp only [toEVIntensity, Function.comp, smul_eq_mul, neg_mul, neg_neg]
    ring
  rw [lhs_eq] at key
  rw [intervalIntegral.integral_symm (hc / E2) (hc / E1)] at key
  exact neg_injective key

/-- C4 witness: the theorem at hc = 1, the constant spectrum, and the energy
window [1, 2]. -/
theorem to_eV_jacobian_preserves_integral_witness :
    (0:ℝ) < 1 ∧ Continuous (fun _ : ℝ => (1:ℝ)) ∧ (0:ℝ) < 1 ∧ (1:ℝ) ≤ 2 ∧
    (∫ E in (1:ℝ)..(2:ℝ), toEVIntensity 1 (fun _ => 1) E)
      = ∫ l in ((1:ℝ) / 2)..((1:ℝ) / 1), (fun _ => (1:ℝ)) l :=
  ⟨one_pos, continuous_const, one_pos, one_le_two,
    to_eV_jacobian_preserves_integral 1 one_pos (fun _ => 1) continuous_const
      1 2 one_pos one_le_two⟩

/-- C3: the SE-navigator cell always reaches a `plot` call, and whenever
accessing the optional cropping metadata fails, the fallback branch plots
the CL signal with the full uncropped SE image as navigator. -/
theorem navigator_cell_always_plots (md : SEMMetadata) :
    (navigatorCell md).2 = true ∧
    ((md.cropped_edges = none ∨ md.resolution_x = none) →
      (navigatorCell md).1 = Navigator.full) := by
  obtain ⟨ce, rx, ry⟩ := md
  cases ce <;> cases rx <;> simp [navigatorCell]

/-- C3 witness: metadata without `cropped_edges`. -/
theorem navigator_cell_always_plots_witness :
    (navigatorCell ⟨none, some 400, some 300⟩).2 = true ∧
    (navigatorCell ⟨none, some 400, some 300⟩).1 = Navigator.full :=
  ⟨(navigator_cell_always_plots ⟨none, some 400, some 300⟩).1,
   (navigator_cell_always_plots ⟨none, some 400, some 300⟩).2 (Or.inl rfl)⟩

/-- C8: in the successful branch of the SE-navigator cell, both crop extents
come from `resolution_x`, so the crop is a square region determined by the
horizontal resolution, and the result does not depend on the recorded
vertical resolution even when it differs. -/
theorem navigator_crop_is_square (crop rx ry : Int) :
    (navigatorCell ⟨some crop, some rx, some ry⟩).1
        = Navigator.cropped crop (rx - crop) crop (rx - crop) ∧
    (ry ≠ rx →
      navigatorCell ⟨some crop, some rx, some ry⟩
        = navigatorCell ⟨some crop, some rx, some rx⟩) :=
  ⟨rfl, fun _ => rfl⟩

/-- C8 witness: crop 5, horizontal resolution 400, differing vertical
resolution 300. -/
theorem navigator_crop_is_square_witness :
    (navigatorCell ⟨some 5, some 400, some 300⟩).1
        = Navigator.cropped 5 395 5 395 ∧
    ((300:Int) ≠ 400) ∧
    navigatorCell ⟨some 5, some 400, some 300⟩
      = navigatorCell ⟨some 5, some 400, some 400⟩ :=
  ⟨(navigator_crop_is_square 5 400 300).1, by decide,
   (navigator_crop_is_square 5 400 300).2 (by decide)⟩

/-- C10: the background-path cell never lets the `IndexError` propagate:
for every glob result it completes with `bkg_path` a string; when the glob
matches nothing, the prompt is printed and `bkg_path` is set to the empty
string, and when it matches, `bkg_path` is the first match. -/
theorem bkg_path_cell_never_raises (ms : List String) :
    runsWithoutError (bkgPathCell ms) = true ∧
    (ms = [] → bkgPathCell ms = Except.ok ([bkgPathPrompt], "")) ∧
    (∀ p rest, ms = p :: rest → bkgPathCell ms = Except.ok ([], p)) := by
  cases ms with
  | nil =>
    refine ⟨rfl, fun _ => rfl, fun p rest hc => ?_⟩
    cases hc
  | cons p rest =>
    refine ⟨rfl, fun hc => ?_, fun q rest2 hc => ?_⟩
    · cases hc
    · cases hc
      rfl

/-- C10 witness: the empty glob result and a singleton glob result. -/
theorem bkg_path_cell_never_raises_witness :
    runsWithoutError (bkgPathCell []) = true ∧
    bkgPathCell [] = Except.ok ([bkgPathPrompt], "") ∧
    bkgPathCell ["bg.txt"] = Except.ok ([], "bg.txt") :=
  ⟨(bkg_path_cell_never_raises []).1,
   (bkg_path_cell_never_raises []).2.1 rfl,
   (bkg_path_cell_never_raises ["bg.txt"]).2.2 "bg.txt" [] rfl⟩

/-- C9: the advanced fitting cell builds exactly `ng = 10` GaussianHF
components; `getPeaks` is called with `maxpeakn = 10`, so at most 10 peaks
come back, the parameter-setting loop indexes `g[i]` only in bounds (the
cell completes without `IndexError`), and afterwards every component whose
index is at or above the number of found peaks has `active = False`. -/
theorem advanced_fitting_cell_safe (cands : List ℚ) :
    (getPeaksModel cands).length ≤ ng ∧
    ∃ g, advancedFittingCell (getPeaksModel cands) = some g ∧ g.length = ng ∧
      ∀ j, j < ng → (getPeaksModel cands).length ≤ j →
        (g[j]?).map GaussianHF.active = some false := by
  have hlen : (getPeaksModel cands).length ≤ ng := by
    simp only [getPeaksModel, find_peaks1D_ohaver, List.length_take, ng]
    omega
  obtain ⟨g, hg, hgl, hfalse, _⟩ := advancedFittingCell_spec _ hlen
  exact ⟨hlen, g, hg, hgl, hfalse⟩

/-- C9 witness: three found peaks; component 4 ends up inactive. -/
theorem advanced_fitting_cell_safe_witness :
    (getPeaksModel [655, 580, 600]).length ≤ ng ∧
    ∃ g, advancedFittingCell (getPeaksModel [655, 580, 600]) = some g ∧
      g.length = ng ∧ (g[4]?).map GaussianHF.active = some false := by
  obtain ⟨h1, g, hg, hgl, hf⟩ := advanced_fitting_cell_safe [655, 580, 600]
  exact ⟨h1, g, hg, hgl, hf 4 (by decide) (by decide)⟩

/-- Is a straight-line statement nothing but a call into the external
library (or the `return` of an already-computed value)? -/
def SimpleStmt.isLibraryCallOrReturn : SimpleStmt → Bool
  | .ret _ => true
  | .expr rs => !rs.isEmpty
  | .assign _ rs => !rs.isEmpty
  | _ => false

/-- Does a function defined in a cell have a body consisting solely of
library calls (plus a `return`)? -/
def Stmt.bodyIsLibraryCalls : Stmt → Bool
  | .funcDef _ body => body.all SimpleStmt.isLibraryCallOrReturn
  | _ => false

/-- Does a statement construct a custom component from the library's
`Expression` factory (a repository-authored formula)? -/
def Stmt.createsExpressionComponent : Stmt → Bool
  | .simple (.assign _ rs) => rs.contains "Expression"
  | _ => false

/-- C1 counterexample: contrary to the claim that no peak-finding routine is
defined by repository code, the fitting notebook defines the function
`getPeaks` in a code cell. -/
theorem repo_defines_a_function :
    (allStmts.any Stmt.definesFunction) = true := by decide

/-- C1 (amended): every hard operation (background subtraction,
wavelength-to-energy conversion, peak fitting, spike detection) is invoked
as a call of an external-library method, and the only routine defined by
repository code is the single helper `getPeaks`, whose body consists solely
of library calls. -/
theorem hard_operations_are_library_calls :
    allRefs.contains "background_subtraction" = true ∧
    allRefs.contains "remove_background" = true ∧
    allRefs.contains "to_eV" = true ∧
    allRefs.contains "fit" = true ∧
    allRefs.contains "multifit" = true ∧
    allRefs.contains "spikes_removal_tool" = true ∧
    allRefs.contains "remove_spikes" = true ∧
    allRefs.contains "cosmic_rays_subtraction" = true ∧
    allStmts.filter Stmt.definesFunction
      = [Stmt.funcDef "getPeaks"
          [.assign "S2" ["rebin"],
           .expr ["smooth_savitzky_golay"],
           .assign "peaks" ["find_peaks1D_ohaver", "np.max"],
           .ret []]] ∧
    ((allStmts.filter Stmt.definesFunction).all Stmt.bodyIsLibraryCalls)
      = true := by decide

/-- C2 counterexample: contrary to the claim that no code cell contains
control flow, some cell does (for-loops and an `if` in the advanced fitting
cell, try/except in two AttoLight cells, an if/elif/else grating dispatch). -/
theorem some_cell_has_control_flow :
    (allCells.any cellHasControlFlow) = true := by decide

/-- C2 (amended): exactly four code cells contain control flow — the
SE-navigator try/except cell (index 12 of `AttolightSEM_HYP.ipynb`), the
background-path try/except cell (index 5) and the grating if/elif/else cell
(index 7) of `AttolightSEM_sur_to_hspy.ipynb`, and the advanced fitting cell
(index 47) of the fitting notebook, whose control flow is exactly three
top-level for-loops (the component-append loop, the
`active_is_multidimensional` loop, the parameter-setting loop) plus an `if`
whose branch contains a fourth, nested for-loop (the deactivation loop);
every other code cell of every notebook is a straight-line sequence. -/
theorem control_flow_in_exactly_four_cells :
    attolightSEM_HYP.map cellHasControlFlow
      = (List.replicate 15 false).set 12 true ∧
    attolightSEM_sur_to_hspy.map cellHasControlFlow
      = (((List.replicate 13 false).set 5 true).set 7 true) ∧
    gatanSEM_dm.map cellHasControlFlow = List.replicate 19 false ∧
    tutorialTransients.map cellHasControlFlow = List.replicate 30 false ∧
    tutorialFitting.map cellHasControlFlow
      = (List.replicate 49 false).set 47 true ∧
    tutorialProcessing.map cellHasControlFlow = List.replicate 31 false ∧
    (tutorialFitting.getD 47 []).filter Stmt.isControlFlow
      = [.forLoop [.expr ["append", "GaussianHF"]],
         .forLoop [.assign "g[i].active_is_multidimensional" []],
         .forLoop
           [.assign "g[i].centre.value" [], .assign "g[i].centre.bmin" [],
            .assign "g[i].centre.bmax" [], .assign "g[i].centre.bounded" [],
            .assign "g[i].fwhm.value" [], .assign "g[i].fwhm.bmax" [],
            .assign "g[i].fwhm.bmin" [], .assign "g[i].fwhm.bounded" [],
            .assign "g[i].height.value" [], .assign "g[i].height.bmin" [],
            .assign "g[i].height.bounded" []],
         .ifChain
           [("np.size(peaks) < ng", [.forLoop [.assign "g[i].active" []]])]
           []] := by
  decide

/-- C6: taken together, the notebooks call library methods of each named
operation class: loading, plotting, background removal (`remove_background`),
spike removal (`remove_spikes`, `spikes_removal_tool`), spectral-axis
conversion (`to_eV`), peak fitting (`fit`, `multifit`), and metadata
inspection (`metadata`). -/
theorem notebooks_exercise_all_operation_classes :
    allRefs.contains "load" = true ∧
    allRefs.contains "plot" = true ∧
    allRefs.contains "remove_background" = true ∧
    allRefs.contains "remove_spikes" = true ∧
    allRefs.contains "spikes_removal_tool" = true ∧
    allRefs.contains "to_eV" = true ∧
    allRefs.contains "fit" = true ∧
    allRefs.contains "multifit" = true ∧
    allRefs.contains "metadata" = true := by decide

/-- C7 counterexample: contrary to the claim that no code cell creates a
model component of its own, the transient notebook constructs the custom
component `Decay1Exp` from the library's `Expression` factory with a
repository-authored formula. -/
theorem repo_creates_custom_component :
    (allStmts.any Stmt.createsExpressionComponent) = true := by decide

/-- C7 (amended): the repository defines no classes, and the only custom
structure it creates is the single `Expression`-component instance
`Decay1Exp`; every other entity is constructed by plain library calls. -/
theorem no_classes_one_custom_component :
    (allStmts.any Stmt.definesClass) = false ∧
    allStmts.filter Stmt.createsExpressionComponent
      = [asg "Decay1Exp" ["Expression"]] := by decide
